import Mathlib

/-!
Verification development for the AI Math Mentor pipeline.

This file gives a shallow embedding, in Lean 4, of the confidence-gated
orchestration pipeline of the repository: the parser's local input
validation, the retrieval-and-relevance-filtering engine, the
verification-strategy dispatcher, the solver's backpressure policy, the
leader orchestration state machine, and the dual-store memory layer.

Conventions of the embedding:
* Python strings are modelled as `List Char` (obtained from Lean `String`
  literals via `String.data`); Python `str.lower`, `str.strip`, substring
  tests and the concrete regular expressions used by the code are modelled
  by executable functions on `List Char`.
* Python floats are modelled as rationals (`ℚ`); all confidence arithmetic
  performed by the code (comparisons, `min`/`max`, averaging, absolute
  difference against the `1e-6` tolerance) is exact on the values the
  claims are about.
* Calls to the external completion oracle are modelled by `Except`-valued
  parameters (an `Except.error` models a raised exception or an
  unparseable response); every function that may consult the oracle also
  returns the number of completion-oracle calls it made, so that
  "the oracle is never invoked" is a provable statement.
-/

namespace MathMentor

/-- Python `\s` whitespace class (ASCII part), as used by `str.strip` and
the regular expressions of the source. -/
def pySpace (c : Char) : Bool :=
  c == ' ' || c == '\t' || c == '\n' || c == '\r' || c == '\x0b' || c == '\x0c'

/-- Model of Python `str.strip()`: remove whitespace from both ends. -/
def stripCL (s : List Char) : List Char :=
  ((s.dropWhile pySpace).reverse.dropWhile pySpace).reverse

/-- Model of Python `str.lower()` (ASCII case folding). -/
def lowerCL (s : List Char) : List Char :=
  s.map Char.toLower

/-- Does `s` start with `pat`? -/
def leadsWith : List Char → List Char → Bool
  | [], _ => true
  | _ :: _, [] => false
  | p :: ps, c :: cs => p == c && leadsWith ps cs

/-- Model of Python's substring test `pat in s`. -/
def hasSub (pat : List Char) : List Char → Bool
  | [] => pat.isEmpty
  | c :: cs => leadsWith pat (c :: cs) || hasSub pat cs

/-- Bracket-matching loop of `parser_agent._has_balanced_brackets`,
carrying the explicit stack of open brackets. -/
def bbLoop : List Char → List Char → Bool
  | stack, [] => stack.isEmpty
  | stack, c :: cs =>
    if c == '(' || c == '[' || c == '\x7b' then
      bbLoop (c :: stack) cs
    else if c == ')' then
      match stack with
      | '(' :: rest => bbLoop rest cs
      | _ => false
    else if c == ']' then
      match stack with
      | '[' :: rest => bbLoop rest cs
      | _ => false
    else if c == '\x7d' then
      match stack with
      | '\x7b' :: rest => bbLoop rest cs
      | _ => false
    else bbLoop stack cs

/-- Model of `parser_agent._has_balanced_brackets`. -/
def hasBalancedBrackets (s : List Char) : Bool :=
  bbLoop [] s

/-- The symbol list checked first by `parser_agent._looks_like_math`. -/
def mathSymbols : List Char :=
  ['=', '+', '-', '*', '/', '^', '√']

/-- The word-problem and probability cue list of
`parser_agent._looks_like_math`. -/
def mathKeywords : List (List Char) :=
  [("probability").data, ("chance").data,
   ("how many").data, ("number of").data, ("total").data,
   ("sum").data, ("difference").data, ("product").data,
   ("ratio").data, ("fraction").data, ("percent").data,
   ("average").data, ("mean").data,
   ("container").data, ("bag").data, ("balls").data, ("cards").data,
   ("dice").data, ("coin").data, ("pick").data, ("choose").data,
   ("select").data, ("random").data]

/-- Model of `parser_agent._looks_like_math`: symbolic math, a digit, or a
word-problem keyword makes the input count as mathematical. -/
def looksLikeMath (s : List Char) : Bool :=
  mathSymbols.any (fun c => s.contains c)
  || s.any Char.isDigit
  || mathKeywords.any (fun kw => hasSub kw (lowerCL s))

/-- The character class admitted by `parser_agent._has_invalid_symbols`
(letters, digits, whitespace, arithmetic and bracket symbols, assorted
punctuation, the backslash, and the literal letters n and t from the
source pattern). -/
def allowedChar (c : Char) : Bool :=
  c.isAlpha || c.isDigit || pySpace c ||
  ['+', '-', '*', '/', '=', '^', '(', ')', '[', ']', '\x7b', '\x7d',
   '.', ',', '√', '%', '?', ':', ';', '\'', '\"', '<', '>', '|', '\\'].contains c

/-- Model of `parser_agent._has_invalid_symbols`: true when some character
falls outside the admitted class. -/
def hasInvalidSymbols (s : List Char) : Bool :=
  s.any (fun c => !(allowedChar c))

/-- Greedy match of the regular expression `[-+]?\d*\.?\d+` at the head of
the input, returning the matched characters: an optional sign, a maximal
digit run, and a fractional part only when at least one digit follows the
dot (backtracking semantics of the Python pattern). -/
def numTokenAt (s : List Char) : Option (List Char) :=
  let sign : List Char × List Char :=
    match s with
    | c :: cs => if c == '-' || c == '+' then ([c], cs) else ([], s)
    | [] => ([], [])
  let ds := sign.2.takeWhile Char.isDigit
  let rest := sign.2.drop ds.length
  match rest with
  | '.' :: rest2 =>
    let ds2 := rest2.takeWhile Char.isDigit
    if ds2.isEmpty then
      if ds.isEmpty then none else some (sign.1 ++ ds)
    else some (sign.1 ++ ds ++ '.' :: ds2)
  | _ => if ds.isEmpty then none else some (sign.1 ++ ds)

/-- Leftmost match of `[-+]?\d*\.?\d+` in the input (the `re.search`
behaviour used by the verifier): try each position left to right. -/
def firstNumTok : List Char → Option (List Char)
  | [] => none
  | c :: cs =>
    match numTokenAt (c :: cs) with
    | some t => some t
    | none => firstNumTok cs

/-- Numeric value of a digit run. -/
def digitsToNat (ds : List Char) : Nat :=
  ds.foldl (fun a c => 10 * a + (c.toNat - 48)) 0

/-- Rational value of a token matched by `numTokenAt` (Python `float` of
the matched text, exactly). -/
def ratOfTok (t : List Char) : ℚ :=
  let signed : Bool × List Char :=
    match t with
    | '-' :: rest => (true, rest)
    | '+' :: rest => (false, rest)
    | _ => (false, t)
  let ip := signed.2.takeWhile Char.isDigit
  let rest := signed.2.drop ip.length
  let fp := match rest with
    | '.' :: rest2 => rest2.takeWhile Char.isDigit
    | _ => []
  let mag : ℚ := (digitsToNat ip : ℚ) + (digitsToNat fp : ℚ) / ((10 : ℚ) ^ fp.length)
  if signed.1 then -mag else mag

/-- Model of `re.search(r"([-+]?\d*\.?\d+)", s)` followed by `float` on
the captured group: the value of the leftmost numeric token, if any. -/
def extractFirstNum (s : List Char) : Option ℚ :=
  (firstNumTok s).map ratOfTok

/-- Values of every numeric token readable at some position of the string
(used to state the spec's phrase "final answer containing a numeric
token"). -/
def scanNums (s : List Char) : List ℚ :=
  s.tails.filterMap (fun t => (numTokenAt t).map ratOfTok)

/-- Decides whether the string contains a numeric token lying in [0,1]. -/
def containsUnitTok (s : List Char) : Bool :=
  (scanNums s).any (fun q => decide (0 ≤ q) && decide (q ≤ 1))

/-- Token alphabet of the sanitized arithmetic expressions fed to `eval`
by the deterministic verifier: numbers, the variable `x`, the operators
`+ - * / **`, and parentheses. -/
inductive ATok where
  | num (q : ℚ)
  | varx
  | add
  | sub
  | mul
  | div
  | pw
  | lp
  | rp
deriving DecidableEq, Repr

/-- Lex a Python numeric literal (`digits+ ('.' digits*)?` or
`'.' digits+`) at the head of the input. -/
def lexNum (s : List Char) : Option (ℚ × List Char) :=
  let ds := s.takeWhile Char.isDigit
  let rest := s.drop ds.length
  if ds.isEmpty then
    match rest with
    | '.' :: r2 =>
      let fs := r2.takeWhile Char.isDigit
      if fs.isEmpty then none
      else some ((digitsToNat fs : ℚ) / (10 : ℚ) ^ fs.length, r2.drop fs.length)
    | _ => none
  else
    match rest with
    | '.' :: r2 =>
      let fs := r2.takeWhile Char.isDigit
      some ((digitsToNat ds : ℚ) + (digitsToNat fs : ℚ) / (10 : ℚ) ^ fs.length,
            r2.drop fs.length)
    | _ => some ((digitsToNat ds : ℚ), rest)

/-- Tokenizer for sanitized arithmetic text; any character outside the
grammar (in particular any letter other than `x`, which `eval` would
reject with a `NameError` against the `{"x": x_val}` environment) makes
the whole evaluation fail. -/
def tokenize : Nat → List Char → Option (List ATok)
  | _, [] => some []
  | 0, _ => none
  | fuel + 1, c :: cs =>
    if c.isDigit || c == '.' then
      match lexNum (c :: cs) with
      | some (q, rest) => (tokenize fuel rest).map (ATok.num q :: ·)
      | none => none
    else if c == 'x' then (tokenize fuel cs).map (ATok.varx :: ·)
    else if c == '+' then (tokenize fuel cs).map (ATok.add :: ·)
    else if c == '-' then (tokenize fuel cs).map (ATok.sub :: ·)
    else if c == '*' then
      match cs with
      | '*' :: cs2 => (tokenize fuel cs2).map (ATok.pw :: ·)
      | _ => (tokenize fuel cs).map (ATok.mul :: ·)
    else if c == '/' then (tokenize fuel cs).map (ATok.div :: ·)
    else if c == '(' then (tokenize fuel cs).map (ATok.lp :: ·)
    else if c == ')' then (tokenize fuel cs).map (ATok.rp :: ·)
    else none

/-- Python `**` on the rational model: defined for integer exponents,
with `0` to a negative power failing (ZeroDivisionError); non-integer
exponents are outside the rational model and are treated as evaluation
failure. -/
def ratPow (b e : ℚ) : Option ℚ :=
  if e.den == 1 then
    if 0 ≤ e.num then some (b ^ e.num.toNat)
    else if b == 0 then none
    else some (b⁻¹ ^ (-e.num).toNat)
  else none

mutual

/-- Python expression level: terms combined by `+` and `-`. -/
def pExpr (xv : ℚ) : Nat → List ATok → Option (ℚ × List ATok)
  | 0, _ => none
  | fuel + 1, ts =>
    match pTerm xv fuel ts with
    | none => none
    | some (v, rest) => pExprLoop xv fuel v rest

/-- Left-associative fold of `+`/`-` at the expression level. -/
def pExprLoop (xv : ℚ) : Nat → ℚ → List ATok → Option (ℚ × List ATok)
  | 0, _, _ => none
  | fuel + 1, acc, ts =>
    match ts with
    | ATok.add :: rest =>
      match pTerm xv fuel rest with
      | none => none
      | some (v, rest2) => pExprLoop xv fuel (acc + v) rest2
    | ATok.sub :: rest =>
      match pTerm xv fuel rest with
      | none => none
      | some (v, rest2) => pExprLoop xv fuel (acc - v) rest2
    | _ => some (acc, ts)

/-- Python term level: factors combined by `*` and `/`. -/
def pTerm (xv : ℚ) : Nat → List ATok → Option (ℚ × List ATok)
  | 0, _ => none
  | fuel + 1, ts =>
    match pFactor xv fuel ts with
    | none => none
    | some (v, rest) => pTermLoop xv fuel v rest

/-- Left-associative fold of `*`/`/`, failing on division by zero
(ZeroDivisionError in the source). -/
def pTermLoop (xv : ℚ) : Nat → ℚ → List ATok → Option (ℚ × List ATok)
  | 0, _, _ => none
  | fuel + 1, acc, ts =>
    match ts with
    | ATok.mul :: rest =>
      match pFactor xv fuel rest with
      | none => none
      | some (v, rest2) => pTermLoop xv fuel (acc * v) rest2
    | ATok.div :: rest =>
      match pFactor xv fuel rest with
      | none => none
      | some (v, rest2) =>
        if v == 0 then none else pTermLoop xv fuel (acc / v) rest2
    | _ => some (acc, ts)

/-- Python unary level: `+`/`-` prefixes, then the power level. -/
def pFactor (xv : ℚ) : Nat → List ATok → Option (ℚ × List ATok)
  | 0, _ => none
  | fuel + 1, ts =>
    match ts with
    | ATok.add :: rest => pFactor xv fuel rest
    | ATok.sub :: rest =>
      match pFactor xv fuel rest with
      | none => none
      | some (v, rest2) => some (-v, rest2)
    | _ => pPower xv fuel ts

/-- Python power level: an atom optionally raised via `**` to a unary
expression (right-binding, as in Python). -/
def pPower (xv : ℚ) : Nat → List ATok → Option (ℚ × List ATok)
  | 0, _ => none
  | fuel + 1, ts =>
    match pAtom xv fuel ts with
    | none => none
    | some (b, rest) =>
      match rest with
      | ATok.pw :: rest2 =>
        match pFactor xv fuel rest2 with
        | none => none
        | some (e, rest3) =>
          match ratPow b e with
          | none => none
          | some v => some (v, rest3)
      | _ => some (b, rest)

/-- Python atom level: a number, the variable `x`, or a parenthesized
expression. -/
def pAtom (xv : ℚ) : Nat → List ATok → Option (ℚ × List ATok)
  | 0, _ => none
  | fuel + 1, ts =>
    match ts with
    | ATok.num q :: rest => some (q, rest)
    | ATok.varx :: rest => some (xv, rest)
    | ATok.lp :: rest =>
      match pExpr xv fuel rest with
      | none => none
      | some (v, rest2) =>
        match rest2 with
        | ATok.rp :: rest3 => some (v, rest3)
        | _ => none
    | _ => none

end

/-- Rational-number model of Python `eval` on a sanitized arithmetic
string with environment `{"x": xv}`: tokenize, then parse-and-evaluate
the full token list, failing (as an exception would) on anything outside
the restricted grammar. -/
def evalSan (s : List Char) (xv : ℚ) : Option ℚ :=
  match tokenize (s.length + 1) s with
  | none => none
  | some ts =>
    match pExpr xv (ts.length * ts.length * 8 + 64) ts with
    | some (v, []) => some v
    | _ => none

/-- The `expr.replace("^", "**")` step of `VerifierAgent._sanitize`. -/
def caretToPow (s : List Char) : List Char :=
  s.foldr (fun c acc => (if c == '^' then ['*', '*'] else [c]) ++ acc) []

/-- The `re.sub(r"(\d)([a-zA-Z(])", r"\1*\2", expr)` step: insert `*`
between a digit and a following letter or opening parenthesis. -/
def starDigitAlpha : List Char → List Char
  | [] => []
  | [c] => [c]
  | a :: b :: rest =>
    if a.isDigit && (b.isAlpha || b == '(') then
      a :: '*' :: starDigitAlpha (b :: rest)
    else a :: starDigitAlpha (b :: rest)

/-- The `re.sub(r"(\))(\d|[a-zA-Z])", r"\1*\2", expr)` step: insert `*`
between a closing parenthesis and a following digit or letter. -/
def starCloseParen : List Char → List Char
  | [] => []
  | [c] => [c]
  | a :: b :: rest =>
    if a == ')' && (b.isDigit || b.isAlpha) then
      a :: '*' :: starCloseParen (b :: rest)
    else a :: starCloseParen (b :: rest)

/-- Model of `VerifierAgent._sanitize`: caret to `**`, strip spaces, then
the two implicit-multiplication substitutions, in source order. -/
def sanitize (s : List Char) : List Char :=
  starCloseParen (starDigitAlpha ((caretToPow s).filter (fun c => c != ' ')))

/-- Python `str.split` on a single separator character. -/
def splitOnChar (sep : Char) : List Char → List (List Char)
  | [] => [[]]
  | c :: cs =>
    let r := splitOnChar sep cs
    if c == sep then [] :: r
    else
      match r with
      | h :: t => (c :: h) :: t
      | [] => [[c]]

/-- The free-symbol guard of `_deterministic_algebra_check`: true when the
problem text contains an ASCII letter other than lowercase `x`
(`set(re.findall(r"[a-zA-Z]", text))` minus `"x"` being non-empty). -/
def hasOtherVar (s : List Char) : Bool :=
  s.any (fun c => c.isAlpha && c != 'x')

/-- The try-block of `VerifierAgent._deterministic_algebra_check`: split
the equation, evaluate both sides at the extracted answer, compare with
tolerance `1e-6`. Any exception (an unpacking error when the text holds
more than one `=`, or an evaluation error) is caught by the source's
`except` and becomes a false verdict with an issue message. -/
def detCore (problemText : List Char) (xv : ℚ) : Bool × Option String :=
  match splitOnChar '=' problemText with
  | [lhs, rhs] =>
    match evalSan (sanitize lhs) xv, evalSan (sanitize rhs) xv with
    | some lv, some rv =>
      if |lv - rv| < 1 / 1000000 then (true, none)
      else
        (false, some (("Substitution failed: LHS=") ++ toString lv
          ++ (", RHS=") ++ toString rv))
    | _, _ =>
      (false, some ("Deterministic verification error: expression evaluation failed"))
  | _ =>
    (false,
     some ("Deterministic verification error: equation does not split into two sides"))

/-- Model of `VerifierAgent._deterministic_algebra_check`. `none` models
the Python `None` ("path not applicable"), returned exactly when one of
the three applicability guards fails: no `=` in the problem text, no
numeric token in the final answer, or a free letter other than `x`. -/
def deterministicAlgebraCheck (problemText finalAnswer : List Char) :
    Option (Bool × Option String) :=
  if !(problemText.contains '=') then none
  else
    match extractFirstNum finalAnswer with
    | none => none
    | some xv =>
      if hasOtherVar problemText then none
      else some (detCore problemText xv)

/-- Decidable equality for `Except`, used to evaluate the embedding on
concrete oracle outcomes. -/
instance exceptDecEq {ε α : Type} [DecidableEq ε] [DecidableEq α] :
    DecidableEq (Except ε α) := fun x y =>
  match x, y with
  | .error a, .error b =>
    if h : a = b then isTrue (by rw [h]) else isFalse (fun hc => h (Except.error.inj hc))
  | .error _, .ok _ => isFalse (fun hc => Except.noConfusion hc)
  | .ok _, .error _ => isFalse (fun hc => Except.noConfusion hc)
  | .ok a, .ok b =>
    if h : a = b then isTrue (by rw [h]) else isFalse (fun hc => h (Except.ok.inj hc))

/-- The `MathTopic` enum of `models/schemas.py`. -/
inductive MathTopic where
  | algebra
  | calculus
  | probability
  | linearAlgebra
  | unknown
deriving DecidableEq, Repr

/-- The string value of each `MathTopic` member (`topic.value` in the
source). -/
def topicValue : MathTopic → String
  | .algebra => "algebra"
  | .calculus => "calculus"
  | .probability => "probability"
  | .linearAlgebra => "linear_algebra"
  | .unknown => "unknown"

/-- Raw user input (`RawInput` of `models/schemas.py`); only the `content`
field is read by the verified pipeline paths. -/
structure RawInput where
  content : String
deriving DecidableEq, Repr

/-- Structured problem (`ParsedProblem` of `models/schemas.py`, the fields
the pipeline reads); the source field `variables` is named `vars` here
because `variables` is a reserved command name in Lean. -/
structure ParsedProblem where
  problem_text : String
  topic : MathTopic
  vars : List String
  needs_clarification : Bool
  clarification_reason : Option String
  confidence : ℚ
deriving DecidableEq, Repr

/-- Retrieved knowledge chunk (`RetrievedContext` of `models/schemas.py`);
the opaque `metadata` dict, never read by the verified paths, is
omitted. -/
structure RetrievedContext where
  text : String
  source : String
  relevance_score : ℚ
deriving DecidableEq, Repr

/-- One solution step (`SolutionStep` of `models/schemas.py`). -/
structure SolutionStep where
  step_number : Nat
  description : String
deriving DecidableEq, Repr

/-- Complete solution (`Solution` of `models/schemas.py`; `tool_calls` is
always the empty list in the source and is omitted). -/
structure Solution where
  final_answer : String
  steps : List SolutionStep
  method_used : String
  context_used : List RetrievedContext
  confidence : ℚ
deriving DecidableEq, Repr

/-- Verification result (`Verification` of `models/schemas.py`). -/
structure Verification where
  is_correct : Bool
  confidence : ℚ
  issues_found : List String
  suggestions : List String
  edge_cases_checked : List String
deriving DecidableEq, Repr

/-- Structured judgment parsed from the verifier oracle's JSON response;
each field is optional, mirroring `data.get(key, default)` in the source.
An unparseable or failed response is modelled as `Except.error` at the
call site. -/
structure OracleVerdict where
  is_correct : Option Bool
  confidence : Option ℚ
  issues_found : Option (List String)
  suggestions : Option (List String)
  edge_cases_checked : Option (List String)
deriving DecidableEq, Repr

/-- The context-aware LLM verification path of `VerifierAgent.verify`
(source lines 162-183): on a parsed judgment the confidence is floored at
0.7; on any exception (transport failure or malformed JSON) the fail-safe
result is returned. The second component counts completion-oracle
calls. -/
def llmVerifyPath : Except String OracleVerdict → Verification × Nat
  | .ok d =>
    ({ is_correct := d.is_correct.getD true,
       confidence := max (d.confidence.getD (7 / 10)) (7 / 10),
       issues_found := d.issues_found.getD [],
       suggestions := d.suggestions.getD [],
       edge_cases_checked := d.edge_cases_checked.getD [] }, 1)
  | .error e =>
    ({ is_correct := true, confidence := 7 / 10,
       issues_found := [("Verifier fallback: ") ++ e],
       suggestions := [("Manual review if needed")],
       edge_cases_checked := [] }, 1)

/-- The soft-pass result of the probability branch of
`VerifierAgent.verify`. -/
def probSoft : Verification :=
  { is_correct := true, confidence := 3 / 4, issues_found := [],
    suggestions := [], edge_cases_checked := [("Conceptual probability validation")] }

/-- The probability bounds check of `VerifierAgent.verify` (source lines
90-113): the first numeric token of the final answer is accepted at
confidence 0.85 when it lies in [0,1]; every other probability answer
soft-passes at confidence 0.75. -/
def probVerify (finalAnswer : List Char) : Verification :=
  match extractFirstNum finalAnswer with
  | some p =>
    if 0 ≤ p ∧ p ≤ 1 then
      { is_correct := true, confidence := 17 / 20, issues_found := [],
        suggestions := [], edge_cases_checked := [("Probability bounds check")] }
    else probSoft
  | none => probSoft

/-- The Verification built from a deterministic-check verdict (source
lines 79-85). -/
def detVerification (ic : Bool) (issue : Option String) : Verification :=
  { is_correct := ic,
    confidence := if ic then 49 / 50 else 2 / 5,
    issues_found := if ic then [] else [issue.getD ("")],
    suggestions := if ic then [] else [("Re-check algebraic steps")],
    edge_cases_checked := [("Direct substitution")] }

/-- Model of `VerifierAgent.verify`: dispatch by topic — deterministic
substitution for algebra and linear algebra when applicable, bounds check
for probability, LLM judgment otherwise. The retrieved context argument
only feeds the oracle prompt in the source and is not otherwise read. The
second component counts completion-oracle calls. -/
def verifierVerify (judge : Except String OracleVerdict)
    (parsed : ParsedProblem) (sol : Solution)
    (_ctx : List RetrievedContext) : Verification × Nat :=
  match (if topicValue parsed.topic == "algebra" || topicValue parsed.topic == "linear_algebra"
    then deterministicAlgebraCheck parsed.problem_text.data sol.final_answer.data
    else none) with
  | some r => (detVerification r.1 r.2, 0)
  | none =>
    if topicValue parsed.topic == "probability" then (probVerify sol.final_answer.data, 0)
    else llmVerifyPath judge

/-- Insert an element into a list, before the first element it is
`le`-related to. Together with `sortLe` this models Python's stable
`sorted`/`list.sort`: an element is placed before a later-processed equal
element, preserving encounter order among ties. -/
def insertLe {α : Type} (le : α → α → Bool) (a : α) : List α → List α
  | [] => [a]
  | b :: l => if le a b then a :: b :: l else b :: insertLe le a l

/-- Stable insertion sort by the boolean comparison `le` (the model of
Python's `sorted` and `list.sort`). -/
def sortLe {α : Type} (le : α → α → Bool) : List α → List α
  | [] => []
  | a :: l => insertLe le a (sortLe le l)

/-- The `MATH_CONSTANTS` set of `parser_agent.py` (`{"i", "e", "pi"}`),
as lowered character lists. -/
def mathConstants : List (List Char) :=
  [['i'], ['e'], ['p', 'i']]

/-- The per-variable semantic correction of `ParserAgent._parse`: a
variable whose lowercase form is a math constant is kept only when the
problem text introduces it with `let`/`where`/`assume`. -/
def keepVariable (contentLower : List Char) (v : String) : Bool :=
  let vl := lowerCL v.data
  if mathConstants.contains vl then
    hasSub (("let ").data ++ vl) contentLower
    || hasSub (("where ").data ++ vl) contentLower
    || hasSub (("assume ").data ++ vl) contentLower
  else true

/-- The `sorted(set(cleaned_vars))` post-processing of
`ParserAgent._parse`: filter via `keepVariable`, deduplicate, sort. -/
def cleanVariables (text : List Char) (vs : List String) : List String :=
  sortLe (fun a b => decide (a ≤ b)) ((vs.filter (keepVariable (lowerCL text))).eraseDups)

/-- Structured output parsed from the parser oracle's JSON; optional
fields mirror `data.get(key, default)` (the source key `variables` is
named `vars`, as in `ParsedProblem`). -/
structure ParserLLMOut where
  problem_text : Option String
  topic : Option String
  vars : Option (List String)
  needs_clarification : Option Bool
  confidence : Option ℚ
deriving DecidableEq, Repr

/-- The topic mapping of `ParserAgent._parse`: lowercase the reported
topic and look it up, defaulting to `unknown`. -/
def topicOfString (s : String) : MathTopic :=
  let l : List Char := lowerCL s.data
  if l == ("algebra").data then .algebra
  else if l == ("calculus").data then .calculus
  else if l == ("probability").data then .probability
  else if l == ("linear_algebra").data then .linearAlgebra
  else .unknown

/-- Model of `ParserAgent._clarify`: a clarification request with topic
`unknown` and confidence 0.3. -/
def clarifyProblem (text : List Char) (reason : String) : ParsedProblem :=
  { problem_text := ⟨text⟩, topic := .unknown, vars := [],
    needs_clarification := true, clarification_reason := some reason,
    confidence := 3 / 10 }

/-- Model of `ParserAgent._parse`: the purely local hard validation runs
first, with no oracle call; only inputs passing every check reach the LLM
structuring step (one oracle call, whose failure propagates as an
exception). The parsed confidence is clamped into [0,1]. The second
component counts completion-oracle calls. -/
def parserParseText (o : Except String ParserLLMOut) (text : List Char) :
    Except String ParsedProblem × Nat :=
  if text.isEmpty then
    (.ok (clarifyProblem text ("Input is empty. Please enter a valid math problem.")), 0)
  else if !(looksLikeMath text) then
    (.ok (clarifyProblem text ("Input does not appear to be a math problem.")), 0)
  else if !(hasBalancedBrackets text) then
    (.ok (clarifyProblem text ("Unbalanced brackets or parentheses detected.")), 0)
  else if hasInvalidSymbols text then
    (.ok (clarifyProblem text
      ("Invalid or unclear symbols detected. Please rewrite the problem.")), 0)
  else
    match o with
    | .error e => (.error e, 1)
    | .ok d =>
      (.ok { problem_text := d.problem_text.getD ⟨text⟩,
             topic := topicOfString (d.topic.getD ("")),
             vars := cleanVariables text (d.vars.getD []),
             needs_clarification := d.needs_clarification.getD false,
             clarification_reason := none,
             confidence := min (max (d.confidence.getD (4 / 5)) 0) 1 }, 1)

/-- Model of `ParserAgent._parse`: the raw content is stripped, then
handed to the validation-and-structuring body. -/
def parserParse (o : Except String ParserLLMOut) (raw : RawInput) :
    Except String ParsedProblem × Nat :=
  parserParseText o (stripCL raw.content.data)

/-- The `MIN_RELEVANCE_SCORE` hard relevance floor of `rag/retriever.py`. -/
def MIN_RELEVANCE_SCORE : ℚ := 7 / 20

/-- Comparison used to model `general_results.sort(key=relevance_score,
reverse=True)`: `a` may come before `b` when its score is at least
`b`'s. -/
def ctxLe (a b : RetrievedContext) : Bool :=
  decide (b.relevance_score ≤ a.relevance_score)

/-- The merge step of `RAGRetriever.retrieve`: for a known topic, the
topic-scoped search results are appended, skipping any whose text already
occurs among the general results (the `seen_texts` set is not updated
inside the loop, exactly as in the source). `general` and `topicRes`
model the two vector-index searches, which are external collaborators. -/
def mergedResults (general topicRes : List RetrievedContext)
    (parsed : ParsedProblem) : List RetrievedContext :=
  if topicValue parsed.topic != "unknown" then
    general ++ topicRes.filter (fun r => !(general.any (fun g => g.text == r.text)))
  else general

/-- Model of `RAGRetriever.retrieve`: merge, sort by descending
relevance, apply the hard relevance floor, return the empty list when
nothing qualifies, truncate to `k`. A total function: no error outcome
exists. -/
def retrieve (general topicRes : List RetrievedContext)
    (parsed : ParsedProblem) (k : Nat) : List RetrievedContext :=
  if ((sortLe ctxLe (mergedResults general topicRes parsed)).filter
      (fun r => decide (MIN_RELEVANCE_SCORE ≤ r.relevance_score))).isEmpty then []
  else ((sortLe ctxLe (mergedResults general topicRes parsed)).filter
      (fun r => decide (MIN_RELEVANCE_SCORE ≤ r.relevance_score))).take k

/-- Remainder of `s` after the first case-insensitive occurrence of
`pat`, if any (the `re.search` scan used by the solver's final-answer
extraction). -/
def findCaselessRem (pat : List Char) : List Char → Option (List Char)
  | [] => if pat.isEmpty then some [] else none
  | c :: cs =>
    if leadsWith (lowerCL pat) (lowerCL (c :: cs)) then
      some ((c :: cs).drop pat.length)
    else findCaselessRem pat cs

/-- Model of `SolverAgent._extract_final_answer`: the stripped text after
the first case-insensitive `FINAL ANSWER:` (the DOTALL `(.+)` capture),
or `Unable to determine`. -/
def extractFinalAnswer (resp : List Char) : String :=
  match findCaselessRem (("final answer:").data) resp with
  | none => "Unable to determine"
  | some rest =>
    let a := stripCL rest
    if a.isEmpty then "Unable to determine" else ⟨a⟩

/-- Match of the step header `STEP\s*(\d+):` (case-insensitive) at the
head of the input, returning the step number and the text after the
colon. -/
def stepHeadMatch (s : List Char) : Option (Nat × List Char) :=
  if leadsWith (("step").data) (lowerCL s) then
    let rest := s.drop 4
    let rest2 := rest.dropWhile pySpace
    let ds := rest2.takeWhile Char.isDigit
    if ds.isEmpty then none
    else
      match rest2.drop ds.length with
      | ':' :: rest3 => some (digitsToNat ds, rest3)
      | _ => none
  else none

/-- Does a case-insensitive `STEP` begin here? (the `(?=STEP|\Z)`
lookahead of the step-splitting pattern). -/
def stepStartsAt (s : List Char) : Bool :=
  leadsWith (("step").data) (lowerCL s)

/-- Characters of a step block: everything up to the next `STEP` or the
end of input (the lazy `[\s\S]*?` capture). -/
def takeToNextStep : List Char → List Char
  | [] => []
  | c :: cs => if stepStartsAt (c :: cs) then [] else c :: takeToNextStep cs

/-- Remainder of the input from the next `STEP` on (where the `findall`
scan resumes). -/
def dropToNextStep : List Char → List Char
  | [] => []
  | c :: cs => if stepStartsAt (c :: cs) then c :: cs else dropToNextStep cs

/-- The `re.findall(r"STEP\s*(\d+):([\s\S]*?)(?=STEP|\Z)", ...)` scan of
`SolverAgent.solve`: leftmost non-overlapping step blocks. The fuel is
instantiated with the input length, which bounds the number of scan
steps. -/
def stepScan : Nat → List Char → List (Nat × List Char)
  | 0, _ => []
  | _, [] => []
  | fuel + 1, c :: cs =>
    match stepHeadMatch (c :: cs) with
    | some nr => (nr.1, takeToNextStep nr.2) :: stepScan fuel (dropToNextStep nr.2)
    | none => stepScan fuel cs

/-- The step list built by `SolverAgent.solve` from the oracle response
(each block stripped). -/
def stepBlocksOf (resp : List Char) : List SolutionStep :=
  (stepScan resp.length resp).map
    (fun p => { step_number := p.1, description := ⟨stripCL p.2⟩ })

/-- The fallback step appended when no `STEP n:` block was found. -/
def defaultSolverStep : SolutionStep :=
  { step_number := 1, description := "Solution derived using standard JEE methods." }

/-- The router's output dict (`RouterAgent.route`); only the `strategy`
key is read outside the solver prompt, for the router trace summary. -/
structure RoutingInfo where
  strategy : Option String
deriving DecidableEq, Repr

/-- The strategy agent's output dict; only the `problem_type` key is read
outside the solver prompt, for the strategy trace summary. -/
structure StrategyOut where
  problem_type : Option String
deriving DecidableEq, Repr

/-- The hard-block refusal Solution of `SolverAgent.solve` (source lines
63-71). -/
def ragBlockedSolution : Solution :=
  { final_answer := "Insufficient reference material to solve reliably.",
    steps := [], method_used := "rag_blocked", context_used := [],
    confidence := 1 / 5 }

/-- Model of `SolverAgent.solve`: empty retrieved context short-circuits
to the refusal Solution with no oracle call; otherwise one oracle call is
made, steps and the final answer are extracted from the response, and the
confidence is the average context relevance clamped into [0.3, 0.95]. In
this typed embedding every context item is already a `RetrievedContext`,
so the defensive normalization loop of the source keeps each item
unchanged. The routing dict and parsed problem only feed the oracle
prompt. The second component counts completion-oracle calls. -/
def solverSolve (resp : Except String String) (_parsed : ParsedProblem)
    (_rt : RoutingInfo) (context : List RetrievedContext) :
    Except String Solution × Nat :=
  if context.isEmpty then (.ok ragBlockedSolution, 0)
  else
    match resp with
    | .error e => (.error e, 1)
    | .ok r =>
      if (stripCL r.data).isEmpty then
        (.error ("Solver LLM returned empty or invalid response"), 1)
      else
        (.ok { final_answer := extractFinalAnswer r.data,
               steps := if (stepBlocksOf r.data).isEmpty then [defaultSolverStep]
                 else stepBlocksOf r.data,
               method_used := "jee_structured_rag_reasoning",
               context_used := context,
               confidence := min (19 / 20) (max (3 / 10)
                 (if context.isEmpty then 3 / 10
                  else (context.map (fun c => c.relevance_score)).sum / context.length)) }, 1)

/-- Student-facing explanation (`Explanation` of `models/schemas.py`; the
`encouragement` keyword passed by the explainer is not a schema field and
is dropped by the model validator, so it is omitted here). -/
structure Explanation where
  summary : String
  detailed_steps : List String
  key_concepts : List String
  common_mistakes_to_avoid : List String
  related_problems : List String
deriving DecidableEq, Repr

/-- Word characters of the `\b` boundary in `re.search(r"\bP\(", l)`. -/
def isWordChar (c : Char) : Bool :=
  c.isAlpha || c.isDigit || c == '_'

/-- Scan for `P(` preceded by a word boundary, carrying the previous
character. -/
def hasPOpenAux (prev : Option Char) : List Char → Bool
  | [] => false
  | [_] => false
  | c :: d :: rest =>
    (c == 'P' && d == '(' &&
      (match prev with
       | none => true
       | some p => !isWordChar p))
    || hasPOpenAux (some c) (d :: rest)

/-- Model of `re.search(r"\bP\(", l)` in the explainer's equation
detector. -/
def hasPOpen (l : List Char) : Bool :=
  hasPOpenAux none l

/-- The equation-line detector of `ExplainerAgent._format_step`. -/
def isEquationLine (l : List Char) : Bool :=
  l.contains '=' || l.contains '→' || hasSub (("d/dx").data) l || l.contains '∫'
  || hasSub (("integral").data) (lowerCL l) || hasSub (("+ c").data) (lowerCL l)
  || hasSub (("+c").data) (lowerCL l) || hasPOpen l

/-- Length of a case-insensitive literal label match at the head of the
input. -/
def labelLitLen (pat s : List Char) : Option Nat :=
  if leadsWith (lowerCL pat) (lowerCL s) then some pat.length else none

/-- Length of a `STEP\s*\d+:` match at the head of the input. -/
def stepLabelLen (s : List Char) : Option Nat :=
  if leadsWith (("step").data) (lowerCL s) then
    let r := s.drop 4
    let ws := r.takeWhile pySpace
    let r2 := r.drop ws.length
    let ds := r2.takeWhile Char.isDigit
    if ds.isEmpty then none
    else
      match r2.drop ds.length with
      | ':' :: _ => some (4 + ws.length + ds.length + 1)
      | _ => none
  else none

/-- Length of a solver-label match at the head of the input: the
alternation `(STEP\s*\d+:|ACTION:|RESULT:|PRINCIPLE:|FINAL ANSWER:)` of
`ExplainerAgent._format_step`, tried in source order. -/
def labelMatchLen (s : List Char) : Option Nat :=
  stepLabelLen s <|> labelLitLen (("action:").data) s
    <|> labelLitLen (("result:").data) s
    <|> labelLitLen (("principle:").data) s
    <|> labelLitLen (("final answer:").data) s

/-- The label-removing `re.sub` of `ExplainerAgent._format_step` (fuel is
instantiated with the input length). -/
def removeLabels : Nat → List Char → List Char
  | 0, s => s
  | _, [] => []
  | fuel + 1, c :: cs =>
    match labelMatchLen (c :: cs) with
    | some n => removeLabels fuel ((c :: cs).drop n)
    | none => c :: removeLabels fuel cs

/-- Python `str.splitlines` over `\n`, `\r` and `\r\n`, without a
trailing empty line. -/
def splitLinesAux (cur : List Char) : List Char → List (List Char)
  | [] => [cur.reverse]
  | '\r' :: '\n' :: rest =>
    if rest.isEmpty then [cur.reverse] else cur.reverse :: splitLinesAux [] rest
  | '\n' :: rest =>
    if rest.isEmpty then [cur.reverse] else cur.reverse :: splitLinesAux [] rest
  | '\r' :: rest =>
    if rest.isEmpty then [cur.reverse] else cur.reverse :: splitLinesAux [] rest
  | c :: rest => splitLinesAux (c :: cur) rest

/-- Model of Python `str.splitlines`. -/
def splitLinesCL (s : List Char) : List (List Char) :=
  if s.isEmpty then [] else splitLinesAux [] s

/-- Python `str.capitalize`: first character uppercased, the rest
lowercased. -/
def capitalizeCL (s : List Char) : List Char :=
  match s with
  | [] => []
  | c :: cs => c.toUpper :: cs.map Char.toLower

/-- The replacements dict of `ExplainerAgent._normalize_reasoning`, in
insertion order. -/
def reasonReplacements : List (List Char × String) :=
  [(("power rule of differentiation").data,
    "The power rule is applied, which states that d/dx(xⁿ) = n·xⁿ⁻¹."),
   (("apply the power rule to each term").data,
    "Each term is differentiated independently using the power rule."),
   (("differentiate the function").data,
    "We compute the derivative of the function with respect to x."),
   (("apply integration").data,
    "The integral is evaluated using standard integration rules."),
   (("power rule of integration").data,
    "The power rule for integration is applied, which increases the power by one and divides by the new exponent."),
   (("use substitution").data,
    "A substitution is used to simplify the integrand before integrating."),
   (("integration by parts").data,
    "Integration by parts is used, based on the formula ∫u dv = uv − ∫v du."),
   (("constant of integration").data,
    "A constant of integration is added because the derivative of a constant is zero."),
   (("+ c").data,
    "A constant of integration is included to represent all antiderivatives."),
   (("simplify the expression").data,
    "The resulting terms are combined and simplified."),
   (("simplification").data,
    "The expression is simplified by combining like terms.")]

/-- Model of `ExplainerAgent._normalize_reasoning`: the first matching
replacement wins, else capitalize (or return empty). -/
def normalizeReasoning (text : List Char) : List Char :=
  let t := lowerCL text
  match reasonReplacements.find? (fun p => hasSub p.1 t) with
  | some p => p.2.data
  | none => if t.isEmpty then [] else capitalizeCL t

/-- Model of `ExplainerAgent._format_step`. -/
def formatStep (text : List Char) (stepNumber : Nat) : String :=
  let cleaned := removeLabels text.length text
  let lines := ((splitLinesCL cleaned).map stripCL).filter (fun l => !l.isEmpty)
  let eqs := lines.filter isEquationLine
  let rawReasoning := List.intercalate [' '] (lines.filter (fun l => !(eqs.contains l)))
  let expl := normalizeReasoning rawReasoning
  let out1 := ("Step ").data ++ (toString stepNumber).data ++ [':', '\n']
  let out2 := if !eqs.isEmpty then out1 ++ List.intercalate ['\n'] eqs else out1
  let out3 := if !expl.isEmpty then out2 ++ ('\n' :: ("Explanation: ").data) ++ expl else out2
  ⟨stripCL out3⟩

/-- Model of `ExplainerAgent._infer_key_concepts`. -/
def inferKeyConcepts (parsed : ParsedProblem) : List String :=
  let tv := topicValue parsed.topic
  if tv == "probability" then ["Probability = Favorable outcomes / Total outcomes"]
  else if tv == "algebra" || tv == "linear_algebra" then
    ["Equation solving", "Algebraic manipulation"]
  else if tv == "calculus" then ["Differentiation", "Integration"]
  else [tv]

/-- Model of `ExplainerAgent._infer_common_mistakes`. -/
def inferCommonMistakes (parsed : ParsedProblem) : List String :=
  let tv := topicValue parsed.topic
  if tv == "probability" then ["Incorrect total outcomes", "Ignoring equally likely cases"]
  else if tv == "calculus" then ["Forgetting +C in integration", "Incorrect rule application"]
  else if tv == "algebra" then ["Sign errors", "Skipping steps"]
  else []

/-- Model of `ExplainerAgent.explain`: a deterministic formatter, making
no completion-oracle call. -/
def explainerExplain (parsed : ParsedProblem) (sol : Solution)
    (_verif : Verification) : Explanation :=
  { summary := ("The problem was solved step by step to obtain ") ++ sol.final_answer ++ ("."),
    detailed_steps := sol.steps.map (fun st => formatStep st.description.data st.step_number),
    key_concepts := inferKeyConcepts parsed,
    common_mistakes_to_avoid := inferCommonMistakes parsed,
    related_problems := [topicValue parsed.topic] }

/-- Per-stage execution trace (`AgentTrace` of `models/schemas.py`;
wall-clock timestamps are outside the embedding and omitted). -/
structure AgentTrace where
  agent_name : String
  input_summary : String
  output_summary : Option String
  status : String
  error : Option String
deriving DecidableEq, Repr

/-- A trace as created by `LeaderAgent._create_trace`. -/
def runningTrace (name inp : String) : AgentTrace :=
  { agent_name := name, input_summary := inp, output_summary := none,
    status := "running", error := none }

/-- A trace completed by `LeaderAgent._complete_trace`. -/
def completedTrace (name inp out : String) : AgentTrace :=
  { agent_name := name, input_summary := inp, output_summary := some out,
    status := "completed", error := none }

/-- The `System` trace appended by the leader's exception handler. -/
def systemErrorTrace (e : String) : AgentTrace :=
  { agent_name := "System", input_summary := "Unhandled exception",
    output_summary := some e, status := "failed", error := some e }

/-- Final pipeline result (`FinalResult` of `models/schemas.py`). -/
structure FinalResult where
  status : String
  raw_input : RawInput
  parsed_problem : Option ParsedProblem
  solution : Option Solution
  verification : Option Verification
  explanation : Option Explanation
  agent_traces : List AgentTrace
  hitl_reason : Option String
  error_message : Option String
deriving DecidableEq, Repr

/-- External-collaborator behaviour for one pipeline run: the configured
verifier threshold and, for each oracle-consulting stage, the structured
outcome of its oracle interaction (`Except.error` modelling a raised
exception), plus the outputs of the two vector-index searches. -/
structure Env where
  threshold : ℚ
  parserOut : Except String ParserLLMOut
  strategyOut : Except String StrategyOut
  routerOut : RoutingInfo
  generalResults : List RetrievedContext
  topicResults : List RetrievedContext
  solverResp : Except String String
  verifierJudge : Except String OracleVerdict

/-- The `status="error"` FinalResult built by the leader's exception
handler: the partial trace is retained and the System trace appended. -/
def errorResult (raw : RawInput) (traces : List AgentTrace) (e : String) : FinalResult :=
  { status := "error", raw_input := raw, parsed_problem := none, solution := none,
    verification := none, explanation := none,
    agent_traces := traces ++ [systemErrorTrace e], hitl_reason := none,
    error_message := some e }

/-- Python `s[:n]`. -/
def strTake (n : Nat) (s : String) : String :=
  ⟨s.data.take n⟩

/-- Python `str(bool)`. -/
def pyBoolStr (b : Bool) : String :=
  if b then "True" else "False"

/-- The `:.0%` percent rendering used in the verifier trace summary. -/
def pctStr (q : ℚ) : String :=
  toString (round (q * 100) : ℤ) ++ ("%")

/-- The solver trace summary of `LeaderAgent.solve`. -/
def solverTraceSummary (sol : Solution) : String :=
  if sol.final_answer.data.isEmpty then "No answer produced"
  else strTake 60 sol.final_answer

/-- The explainer trace summary of `LeaderAgent.solve`. -/
def explainerTraceSummary (expl : Explanation) : String :=
  if expl.summary.data.isEmpty then "Explanation generated"
  else strTake 60 expl.summary

/-- Stages of `LeaderAgent.solve` from the router on: retrieval, solving,
verification, the HITL confidence gate, and explanation. `ts` are the
traces accumulated so far and `calls` the completion-oracle calls made so
far; the router contributes one call. -/
def leaderPostStrategy (env : Env) (raw : RawInput) (parsed : ParsedProblem)
    (ts : List AgentTrace) (calls : Nat) : FinalResult × Nat :=
  let t3 := completedTrace ("Router") ("Selecting solve strategy")
      (env.routerOut.strategy.getD ("default"))
  let context := retrieve env.generalResults env.topicResults parsed 5
  let t4 := completedTrace ("Retriever") ("Fetching reference material")
      (("Retrieved ") ++ toString context.length ++ (" chunks"))
  match solverSolve env.solverResp parsed env.routerOut context with
  | (.error e, n) =>
    (errorResult raw (ts ++ [t3, t4, runningTrace ("Solver") ("Executing solution plan")]) e,
     calls + 1 + n)
  | (.ok sol, n) =>
    let t5 := completedTrace ("Solver") ("Executing solution plan") (solverTraceSummary sol)
    let vres := verifierVerify env.verifierJudge parsed sol context
    let t6 := completedTrace ("Verifier") ("Checking correctness")
        (("Correct: ") ++ pyBoolStr vres.1.is_correct ++ (", Conf: ") ++ pctStr vres.1.confidence)
    let traces2 := ts ++ [t3, t4, t5, t6]
    if (topicValue parsed.topic == "algebra" || topicValue parsed.topic == "linear_algebra")
        && decide (vres.1.confidence < env.threshold) then
      ({ status := "needs_hitl", raw_input := raw, parsed_problem := some parsed,
         solution := some sol, verification := some vres.1, explanation := none,
         agent_traces := traces2, hitl_reason := some ("Low verifier confidence"),
         error_message := none }, calls + 1 + n + vres.2)
    else
      let expl := explainerExplain parsed sol vres.1
      let t7 := completedTrace ("Explainer") ("Generating explanation")
          (explainerTraceSummary expl)
      ({ status := "success", raw_input := raw, parsed_problem := some parsed,
         solution := some sol, verification := some vres.1, explanation := some expl,
         agent_traces := traces2 ++ [t7], hitl_reason := none,
         error_message := none }, calls + 1 + n + vres.2)

/-- Model of `LeaderAgent.solve`: parse (with the clarification
short-circuit), strategy, then the remaining stages; every raised
exception is wrapped into a `status="error"` result with the partial
trace retained. The second component counts completion-oracle calls. -/
def leaderSolve (env : Env) (raw : RawInput) : FinalResult × Nat :=
  match parserParse env.parserOut raw with
  | (.error e, n) =>
    (errorResult raw [runningTrace ("Parser") (strTake 60 raw.content)] e, n)
  | (.ok parsed, n) =>
    let t1 := completedTrace ("Parser") (strTake 60 raw.content)
        (("Topic: ") ++ topicValue parsed.topic)
    if parsed.needs_clarification then
      ({ status := "needs_hitl", raw_input := raw, parsed_problem := some parsed,
         solution := none, verification := none, explanation := none,
         agent_traces := [t1], hitl_reason := parsed.clarification_reason,
         error_message := none }, n)
    else
      match env.strategyOut with
      | .error e =>
        (errorResult raw [t1, runningTrace ("Strategy") ("Planning solution approach")] e,
         n + 1)
      | .ok st =>
        let t2 := completedTrace ("Strategy") ("Planning solution approach")
            (("Type: ") ++ st.problem_type.getD ("unknown"))
        leaderPostStrategy env raw parsed [t1, t2] (n + 1)

/-- Entry in memory (`MemoryEntry` of `models/schemas.py`; wall-clock
timestamps are outside the embedding). -/
structure MemoryEntry where
  input_type : String
  raw_input : String
  parsed_problem : String
  topic : String
  solution : String
  verification_score : Option ℚ
  user_feedback : Option String
deriving DecidableEq, Repr

/-- A row of the relational `interactions` table of `memory/store.py`. -/
structure InteractionRow where
  id : Nat
  input_type : String
  raw_input : String
  parsed_problem : String
  topic : String
  solution : String
  verification_score : Option ℚ
  user_feedback : Option String
  corrected_solution : Option String
  embedding_id : Option String
deriving DecidableEq, Repr

/-- An entry of the `problem_memory` vector collection: the deterministic
id, the document, and the metadata written by `save_interaction` (the
embedding vector itself is external and is abstracted by the distance
function of queries). -/
structure IndexEntry where
  key : String
  document : String
  interaction_id : Nat
  topic : String
  solution : String
  feedback : String
deriving DecidableEq, Repr

/-- Combined state of the dual store: the relational table, the vector
collection, and the autoincrement counter. -/
structure StoreState where
  rows : List InteractionRow
  index : List IndexEntry
  nextId : Nat
deriving DecidableEq, Repr

/-- The deterministic vector-index id `f"interaction_{interaction_id}"`. -/
def interactionKey (iid : Nat) : String :=
  ("interaction_") ++ toString iid

/-- The relational row as inserted by step 1 of
`MemoryStore.save_interaction`: `embedding_id` is not among the inserted
columns, hence null. -/
def pendingRow (entry : MemoryEntry) (iid : Nat) : InteractionRow :=
  { id := iid, input_type := entry.input_type, raw_input := entry.raw_input,
    parsed_problem := entry.parsed_problem, topic := entry.topic,
    solution := entry.solution, verification_score := entry.verification_score,
    user_feedback := entry.user_feedback, corrected_solution := none,
    embedding_id := none }

/-- Step 1 of `MemoryStore.save_interaction`: the committed relational
INSERT, returning the autoincrement row id. -/
def insertRow (entry : MemoryEntry) (s : StoreState) : StoreState × Nat :=
  ({ rows := s.rows ++ [pendingRow entry s.nextId], index := s.index,
     nextId := s.nextId + 1 }, s.nextId)

/-- The vector-collection entry written by step 3 of
`MemoryStore.save_interaction`: the deterministic key, the document, and
the metadata of the source (the stored solution truncated to 1000
characters). -/
def indexEntryOf (entry : MemoryEntry) (iid : Nat) : IndexEntry :=
  { key := interactionKey iid, document := entry.parsed_problem,
    interaction_id := iid, topic := entry.topic,
    solution := ⟨entry.solution.data.take 1000⟩,
    feedback := entry.user_feedback.getD ("") }

/-- Step 3 of `MemoryStore.save_interaction`: the vector-collection
write. -/
def indexAdd (entry : MemoryEntry) (iid : Nat) (s : StoreState) : StoreState :=
  { s with index := s.index ++ [indexEntryOf entry iid] }

/-- Step 4 of `MemoryStore.save_interaction`: the committed UPDATE
backfilling `embedding_id` on the relational row. -/
def backfillEmbeddingId (iid : Nat) (eid : String) (s : StoreState) : StoreState :=
  { s with
    rows := s.rows.map
      (fun r => if r.id == iid then { r with embedding_id := some eid } else r) }

/-- Model of `MemoryStore.save_interaction`: the relational insert is
committed first; then the embedding oracle and the vector-collection
write run (each may raise, modelled by the `embedOk`/`addOk` flags); only
after both succeed is `embedding_id` backfilled. A raise after step 1
leaves the committed row in place — there is no rollback in the
source. -/
def saveInteraction (embedOk addOk : Bool) (entry : MemoryEntry) (s : StoreState) :
    Except String Nat × StoreState :=
  let s1p := insertRow entry s
  if !embedOk then (.error ("embedding oracle failed"), s1p.1)
  else if !addOk then (.error ("vector index write failed"), s1p.1)
  else
    let s2 := indexAdd entry s1p.2 s1p.1
    let s3 := backfillEmbeddingId s1p.2 (interactionKey s1p.2) s2
    (.ok s1p.2, s3)

/-- An item of the list returned by `MemoryStore.find_similar_problems`. -/
structure SimilarItem where
  problem : String
  solution : String
  topic : String
  feedback : String
  similarity : ℚ
deriving DecidableEq, Repr

/-- The dict built for one query hit: document and metadata of the index
entry, with similarity `1 - distance`. -/
def mkSimilarItem (dist : IndexEntry → ℚ) (e : IndexEntry) : SimilarItem :=
  { problem := e.document, solution := e.solution, topic := e.topic,
    feedback := e.feedback, similarity := 1 - dist e }

/-- Model of `MemoryStore.find_similar_problems`: the vector collection
returns its `k` nearest entries by the external distance ranking `dist`
(embedding oracle plus cosine distance); only vector-indexed entries are
ever candidates. -/
def findSimilar (dist : IndexEntry → ℚ) (k : Nat) (s : StoreState) : List SimilarItem :=
  ((sortLe (fun a b => decide (dist a ≤ dist b)) s.index).take k).map (mkSimilarItem dist)

/-- Relational lookup by row id. -/
def getRow (s : StoreState) (iid : Nat) : Option InteractionRow :=
  s.rows.find? (fun r => r.id == iid)

/-- Does the vector collection hold an entry under this key? -/
def indexHasKey (s : StoreState) (key : String) : Bool :=
  s.index.any (fun e => e.key == key)

/-- Autoincrement well-formedness: every existing row id is below the
counter. -/
def storeWF (s : StoreState) : Prop :=
  ∀ r ∈ s.rows, r.id < s.nextId

/-- Applicability of the deterministic algebra path, as the spec phrases
it: the problem text contains an equation, a numeric final answer can be
extracted, and no free symbol other than the solved-for variable `x`
occurs. -/
def detApplicable (problemText finalAnswer : List Char) : Prop :=
  problemText.contains '=' = true
  ∧ (extractFirstNum finalAnswer).isSome = true
  ∧ hasOtherVar problemText = false

instance (pt fa : List Char) : Decidable (detApplicable pt fa) :=
  inferInstanceAs (Decidable (pt.contains '=' = true
    ∧ (extractFirstNum fa).isSome = true ∧ hasOtherVar pt = false))

/-- The issue message computed by the deterministic check for the
equation `2x+5=13` at `x = 1` (`LHS=7`, `RHS=13`). -/
def substFailMsgW : String :=
  ("Substitution failed: LHS=") ++ toString (7 : ℚ) ++ (", RHS=") ++ toString (13 : ℚ)

/-! Concrete inputs used by witness and counterexample theorems. -/

/-- A parsed algebra problem holding the equation `2x+5=13`. -/
def algebraParsedW : ParsedProblem :=
  { problem_text := "2x+5=13", topic := .algebra, vars := ["x"],
    needs_clarification := false, clarification_reason := none, confidence := 9 / 10 }

/-- A solution answering `x = 4`. -/
def solutionX4 : Solution :=
  { final_answer := "x = 4", steps := [], method_used := "jee_structured_rag_reasoning",
    context_used := [], confidence := 1 / 2 }

/-- A solution answering `x = 1`. -/
def solutionX1 : Solution :=
  { final_answer := "x = 1", steps := [], method_used := "jee_structured_rag_reasoning",
    context_used := [], confidence := 1 / 2 }

/-- A parsed probability problem. -/
def probParsedW : ParsedProblem :=
  { problem_text := "A bag holds 10 balls, 2 of them red; one ball is picked at random",
    topic := .probability, vars := [], needs_clarification := false,
    clarification_reason := none, confidence := 9 / 10 }

/-- A probability answer whose first numeric token (2) is out of bounds
although the answer contains the numeric token 0.5 inside [0,1]. -/
def probSolutionW : Solution :=
  { final_answer := "2 out of 10, i.e. 0.5 after halving", steps := [],
    method_used := "jee_structured_rag_reasoning", context_used := [],
    confidence := 1 / 2 }

/-- A parsed calculus problem (dispatched to the oracle-judged path). -/
def calcParsedW : ParsedProblem :=
  { problem_text := "Differentiate 3t with respect to t", topic := .calculus,
    vars := ["t"], needs_clarification := false, clarification_reason := none,
    confidence := 9 / 10 }

/-- An oracle verdict reporting an out-of-range confidence of 1.5. -/
def badVerdictW : OracleVerdict :=
  { is_correct := some true, confidence := some (3 / 2), issues_found := some [],
    suggestions := some [], edge_cases_checked := some [] }

/-- A parser-oracle output classifying the input as algebra. -/
def parserOutW : ParserLLMOut :=
  { problem_text := none, topic := some ("algebra"), vars := none,
    needs_clarification := none, confidence := none }

/-- The raw input `2x+5=13`. -/
def rawW : RawInput :=
  { content := "2x+5=13" }

/-- The raw input `asdkjf` of the spec's rejection scenario. -/
def rawRejectW : RawInput :=
  { content := "asdkjf" }

/-- An environment whose retrieval returns nothing and whose verifier
oracle fails, driving an algebra run into the low-confidence gate. -/
def envGateW : Env :=
  { threshold := 4 / 5, parserOut := .ok parserOutW,
    strategyOut := .ok { problem_type := none },
    routerOut := { strategy := none }, generalResults := [], topicResults := [],
    solverResp := .error ("solver transport failure"),
    verifierJudge := .error ("verifier transport failure") }

/-- A single retrieved chunk of relevance 0.5. -/
def ctxChunkW : RetrievedContext :=
  { text := "Quadratic formula reference", source := "kb", relevance_score := 1 / 2 }

/-- A retrieved chunk below the relevance floor. -/
def weakChunkW : RetrievedContext :=
  { text := "Unrelated material", source := "kb", relevance_score := 1 / 10 }

/-- The solution the solver builds from the response `FINAL ANSWER: 42`
with one retrieved chunk of relevance 0.5. -/
def solW10 : Solution :=
  { final_answer := "42", steps := [defaultSolverStep],
    method_used := "jee_structured_rag_reasoning", context_used := [ctxChunkW],
    confidence := 1 / 2 }

/-- The ParsedProblem the parser builds for `2x+5=13` from
`parserOutW`. -/
def parsedGateW : ParsedProblem :=
  { problem_text := "2x+5=13", topic := .algebra, vars := [],
    needs_clarification := false, clarification_reason := none, confidence := 4 / 5 }

/-- A memory entry for one solved interaction. -/
def entryW : MemoryEntry :=
  { input_type := "text", raw_input := "2x+5=13", parsed_problem := "2x+5=13",
    topic := "algebra", solution := "x = 4", verification_score := some (49 / 50),
    user_feedback := some ("correct") }

/-- A fresh store whose autoincrement counter starts at 1, as sqlite
does. -/
def emptyStoreW : StoreState :=
  { rows := [], index := [], nextId := 1 }

unseal Rat.mul Rat.add Rat.sub Rat.inv

/-- Membership in `insertLe`. -/
theorem mem_insertLe {α : Type} (le : α → α → Bool) (a x : α) (l : List α) :
    x ∈ insertLe le a l ↔ x = a ∨ x ∈ l := by
  induction l with
  | nil => simp [insertLe]
  | cons b t ih =>
    simp only [insertLe]
    split
    · simp only [List.mem_cons]
    · simp only [List.mem_cons, ih]
      tauto

/-- Membership in `sortLe`. -/
theorem mem_sortLe {α : Type} (le : α → α → Bool) (x : α) (l : List α) :
    x ∈ sortLe le l ↔ x ∈ l := by
  induction l with
  | nil => simp [sortLe]
  | cons a t ih =>
    simp only [sortLe]
    rw [mem_insertLe, ih, List.mem_cons]

/-- Inserting into a sorted list keeps it sorted, for a transitive and
total comparison. -/
theorem pairwise_insertLe {α : Type} (le : α → α → Bool)
    (htrans : ∀ a b c, le a b → le b c → le a c)
    (htotal : ∀ a b, le a b || le b a)
    (a : α) (l : List α) (h : l.Pairwise (fun x y => le x y = true)) :
    (insertLe le a l).Pairwise (fun x y => le x y = true) := by
  induction l with
  | nil => simp [insertLe]
  | cons b t ih =>
    simp only [insertLe]
    rcases List.pairwise_cons.mp h with ⟨hb, ht⟩
    split
    · rename_i hab
      refine List.pairwise_cons.mpr ⟨?_, h⟩
      intro x hx
      rcases List.mem_cons.mp hx with rfl | hxt
      · exact hab
      · exact htrans a b x hab (hb x hxt)
    · rename_i hab
      have hba : le b a = true := by
        rcases Bool.or_eq_true_iff.mp (htotal a b) with h1 | h1
        · exact absurd h1 hab
        · exact h1
      refine List.pairwise_cons.mpr ⟨?_, ih ht⟩
      intro x hx
      rcases (mem_insertLe le a x t).mp hx with rfl | hxt
      · exact hba
      · exact hb x hxt

/-- The stable sort is sorted, for a transitive and total comparison. -/
theorem pairwise_sortLe {α : Type} (le : α → α → Bool)
    (htrans : ∀ a b c, le a b → le b c → le a c)
    (htotal : ∀ a b, le a b || le b a) (l : List α) :
    (sortLe le l).Pairwise (fun x y => le x y = true) := by
  induction l with
  | nil => simp [sortLe]
  | cons a t ih =>
    simp only [sortLe]
    exact pairwise_insertLe le htrans htotal a (sortLe le t) ih

/-- C9: the deterministic algebra verification path yields a verdict
exactly when it is applicable — the problem text contains an equation, a
numeric final answer can be extracted, and no free symbol other than `x`
occurs; on every input where it is not applicable it returns the
not-applicable outcome `none` (so dispatch falls through to another
path), never a false verdict. -/
theorem det_path_applicability (pt fa : List Char) :
    ((deterministicAlgebraCheck pt fa).isSome = true ↔ detApplicable pt fa)
    ∧ (¬ detApplicable pt fa → deterministicAlgebraCheck pt fa = none) := by
  have hiff : (deterministicAlgebraCheck pt fa).isSome = true ↔ detApplicable pt fa := by
    cases h1 : pt.contains '=' with
    | false =>
      have hz : deterministicAlgebraCheck pt fa = none := by
        unfold deterministicAlgebraCheck
        rw [h1]
        rfl
      rw [hz]
      constructor
      · intro h
        cases h
      · rintro ⟨hc, -, -⟩
        rw [h1] at hc
        cases hc
    | true =>
      cases h2 : extractFirstNum fa with
      | none =>
        have hz : deterministicAlgebraCheck pt fa = none := by
          unfold deterministicAlgebraCheck
          rw [h1, h2]
          rfl
        rw [hz]
        constructor
        · intro h
          cases h
        · rintro ⟨-, hs, -⟩
          rw [h2] at hs
          cases hs
      | some xv =>
        cases h3 : hasOtherVar pt with
        | true =>
          have hz : deterministicAlgebraCheck pt fa = none := by
            unfold deterministicAlgebraCheck
            rw [h1, h2, h3]
            rfl
          rw [hz]
          constructor
          · intro h
            cases h
          · rintro ⟨-, -, hv⟩
            rw [h3] at hv
            cases hv
        | false =>
          have hz : deterministicAlgebraCheck pt fa = some (detCore pt xv) := by
            unfold deterministicAlgebraCheck
            rw [h1, h2, h3]
            rfl
          rw [hz]
          simp only [Option.isSome_some, detApplicable, h1, h2, h3]
          simp [List.mem_of_elem_eq_true h1]
  refine ⟨hiff, fun hna => ?_⟩
  cases h : deterministicAlgebraCheck pt fa with
  | none => rfl
  | some v => exact absurd (hiff.mp (by simp [h])) hna

/-- C9 witness: for the problem `y+1=2` (free symbol `y` other than `x`)
the path is not applicable and is skipped. -/
theorem det_path_applicability_witness :
    deterministicAlgebraCheck (("y+1=2").data) (("y = 1").data) = none :=
  (det_path_applicability (("y+1=2").data) (("y = 1").data)).2 (by decide)

/-- C2: for the algebra problem `2x+5=13`, deterministic verification
substitutes the numeric final answer into both sides and compares with
tolerance 1e-6, never calling the completion oracle (the oracle-call
count is 0 and the result does not depend on the oracle behaviour): the
answer `x = 4` verifies at confidence 0.98 with no issues, the answer
`x = 1` is rejected at confidence 0.40 with a non-empty issue list
describing the mismatch. -/
theorem det_verify_two_x_plus_five (judge : Except String OracleVerdict)
    (ctx : List RetrievedContext) :
    verifierVerify judge algebraParsedW solutionX4 ctx
      = ({ is_correct := true, confidence := 49 / 50, issues_found := [],
           suggestions := [], edge_cases_checked := [("Direct substitution")] }, 0)
    ∧ (verifierVerify judge algebraParsedW solutionX1 ctx).1.is_correct = false
    ∧ (verifierVerify judge algebraParsedW solutionX1 ctx).1.confidence = 2 / 5
    ∧ (verifierVerify judge algebraParsedW solutionX1 ctx).1.issues_found ≠ []
    ∧ (verifierVerify judge algebraParsedW solutionX1 ctx).2 = 0 := by
  have h1 : verifierVerify judge algebraParsedW solutionX1 ctx
      = (detVerification false (some substFailMsgW), 0) := rfl
  refine ⟨rfl, ?_, ?_, ?_, ?_⟩ <;> rw [h1] <;> simp [detVerification]

/-- C3 counterexample: the probability verifier keys on the first numeric
token of the final answer; an answer containing the numeric token 0.5
inside [0,1], but whose first token is 2, gets confidence 0.75, below the
0.85 the claim requires. -/
theorem prob_unit_token_counterexample :
    containsUnitTok probSolutionW.final_answer.data = true
    ∧ (verifierVerify (.error ("oracle down")) probParsedW probSolutionW []).1.confidence
        = 3 / 4
    ∧ (3 : ℚ) / 4 < 17 / 20 := by
  refine ⟨by decide, by decide, by norm_num⟩

/-- C3 (amended): for every probability problem, verify never blocks and
makes no oracle call: every result has `is_correct = true` and confidence
at least 0.75, and whenever the FIRST numeric token of the final answer
lies in [0,1] the confidence is exactly 0.85. -/
theorem prob_verify_soft (judge : Except String OracleVerdict)
    (parsed : ParsedProblem) (sol : Solution) (ctx : List RetrievedContext)
    (ht : parsed.topic = .probability) :
    (verifierVerify judge parsed sol ctx).1.is_correct = true
    ∧ 3 / 4 ≤ (verifierVerify judge parsed sol ctx).1.confidence
    ∧ (∀ p, extractFirstNum sol.final_answer.data = some p → 0 ≤ p → p ≤ 1 →
        (verifierVerify judge parsed sol ctx).1.confidence = 17 / 20)
    ∧ (verifierVerify judge parsed sol ctx).2 = 0 := by
  have hv : verifierVerify judge parsed sol ctx = (probVerify sol.final_answer.data, 0) := by
    unfold verifierVerify
    rw [ht]
    rfl
  rw [hv]
  cases hx : extractFirstNum sol.final_answer.data with
  | none =>
    have hval : probVerify sol.final_answer.data = probSoft := by
      unfold probVerify
      rw [hx]
    rw [hval]
    refine ⟨rfl, le_refl _, ?_, rfl⟩
    intro p hp
    cases hp
  | some p =>
    by_cases hb : 0 ≤ p ∧ p ≤ 1
    · have hval : probVerify sol.final_answer.data
          = { is_correct := true, confidence := 17 / 20, issues_found := [],
              suggestions := [], edge_cases_checked := [("Probability bounds check")] } := by
        unfold probVerify
        rw [hx]
        exact if_pos hb
      rw [hval]
      refine ⟨rfl, by show (3 : ℚ) / 4 ≤ 17 / 20; norm_num, ?_, rfl⟩
      intro q hq h0 h1
      rfl
    · have hval : probVerify sol.final_answer.data = probSoft := by
        unfold probVerify
        rw [hx]
        exact if_neg hb
      rw [hval]
      refine ⟨rfl, le_refl _, ?_, rfl⟩
      intro q hq h0 h1
      injection hq with hq
      exact absurd ⟨hq ▸ h0, hq ▸ h1⟩ hb

/-- C3 witness: the amended theorem applied to a concrete probability
run. -/
theorem prob_verify_soft_witness :
    (verifierVerify (.error ("oracle down")) probParsedW probSolutionW []).1.is_correct = true
    ∧ 3 / 4 ≤ (verifierVerify (.error ("oracle down")) probParsedW probSolutionW []).1.confidence
    ∧ (∀ p, extractFirstNum probSolutionW.final_answer.data = some p → 0 ≤ p → p ≤ 1 →
        (verifierVerify (.error ("oracle down")) probParsedW probSolutionW []).1.confidence
          = 17 / 20)
    ∧ (verifierVerify (.error ("oracle down")) probParsedW probSolutionW []).2 = 0 :=
  prob_verify_soft (.error ("oracle down")) probParsedW probSolutionW [] rfl

/-- C5: on the oracle-judged verification path the returned confidence is
at least 0.70 whatever the oracle reports, and when the oracle
interaction fails to produce a structured judgment the verifier returns
the fail-safe result (`is_correct = true`, confidence 0.70, an issue
noting the failure) instead of raising. -/
theorem verify_oracle_floor (judge : Except String OracleVerdict)
    (parsed : ParsedProblem) (sol : Solution) (ctx : List RetrievedContext)
    (hnp : topicValue parsed.topic ≠ "probability")
    (hdet : topicValue parsed.topic = "algebra" ∨ topicValue parsed.topic = "linear_algebra" →
      deterministicAlgebraCheck parsed.problem_text.data sol.final_answer.data = none) :
    7 / 10 ≤ (verifierVerify judge parsed sol ctx).1.confidence
    ∧ (∀ e, judge = .error e →
        (verifierVerify judge parsed sol ctx).1
          = { is_correct := true, confidence := 7 / 10,
              issues_found := [("Verifier fallback: ") ++ e],
              suggestions := [("Manual review if needed")],
              edge_cases_checked := [] }) := by
  have hb2 : (topicValue parsed.topic == "probability") = false :=
    beq_eq_false_iff_ne.mpr hnp
  have hv : verifierVerify judge parsed sol ctx = llmVerifyPath judge := by
    unfold verifierVerify
    by_cases hb : (topicValue parsed.topic == "algebra"
        || topicValue parsed.topic == "linear_algebra") = true
    · have hor : topicValue parsed.topic = "algebra"
          ∨ topicValue parsed.topic = "linear_algebra" := by
        rcases Bool.or_eq_true_iff.mp hb with h | h
        · exact Or.inl (by simpa using h)
        · exact Or.inr (by simpa using h)
      rw [if_pos hb, hdet hor]
      simp [hb2]
    · rw [if_neg hb]
      simp [hb2]
  rw [hv]
  cases judge with
  | ok d =>
    refine ⟨le_max_right _ _, ?_⟩
    intro e he
    exact absurd he (by simp)
  | error e' =>
    refine ⟨le_refl _, ?_⟩
    intro e he
    injection he with h
    subst h
    rfl

/-- C5 witness: a calculus problem with a failed oracle interaction. -/
theorem verify_oracle_floor_witness :
    7 / 10 ≤ (verifierVerify (.error ("timeout")) calcParsedW solutionX4 []).1.confidence
    ∧ (∀ e, (Except.error ("timeout") : Except String OracleVerdict) = .error e →
        (verifierVerify (.error ("timeout")) calcParsedW solutionX4 []).1
          = { is_correct := true, confidence := 7 / 10,
              issues_found := [("Verifier fallback: ") ++ e],
              suggestions := [("Manual review if needed")],
              edge_cases_checked := [] }) :=
  verify_oracle_floor (.error ("timeout")) calcParsedW solutionX4 []
    (by decide) (by decide)

/-- Transitivity of the descending-relevance comparison. -/
theorem ctxLe_trans : ∀ a b c : RetrievedContext, ctxLe a b → ctxLe b c → ctxLe a c := by
  intro a b c hab hbc
  simp only [ctxLe, decide_eq_true_eq] at hab hbc ⊢
  exact le_trans hbc hab

/-- Totality of the descending-relevance comparison. -/
theorem ctxLe_total : ∀ a b : RetrievedContext, ctxLe a b || ctxLe b a := by
  intro a b
  simp only [ctxLe]
  rcases le_total a.relevance_score b.relevance_score with h | h
  · simp [h]
  · simp [h]

/-- C4: for every problem and index state (modelled by the two search
result lists), `retrieve` returns only chunks whose relevance is at least
the 0.35 floor, sorted by descending relevance, truncated to at most `k`;
and when no merged chunk clears the floor it returns the empty list — a
first-class outcome of this total function, not an error. -/
theorem retrieve_floor_and_sorted (general topicRes : List RetrievedContext)
    (parsed : ParsedProblem) (k : Nat) :
    (∀ c ∈ retrieve general topicRes parsed k, MIN_RELEVANCE_SCORE ≤ c.relevance_score)
    ∧ (retrieve general topicRes parsed k).Pairwise
        (fun a b => b.relevance_score ≤ a.relevance_score)
    ∧ (retrieve general topicRes parsed k).length ≤ k
    ∧ ((∀ c ∈ mergedResults general topicRes parsed,
          c.relevance_score < MIN_RELEVANCE_SCORE) →
        retrieve general topicRes parsed k = []) := by
  have hsorted : (sortLe ctxLe (mergedResults general topicRes parsed)).Pairwise
      (fun a b => b.relevance_score ≤ a.relevance_score) := by
    have h := pairwise_sortLe ctxLe ctxLe_trans ctxLe_total
      (mergedResults general topicRes parsed)
    exact h.imp (fun hab => by simpa [ctxLe, decide_eq_true_eq] using hab)
  by_cases he : ((sortLe ctxLe (mergedResults general topicRes parsed)).filter
      (fun r => decide (MIN_RELEVANCE_SCORE ≤ r.relevance_score))).isEmpty
  · have hr : retrieve general topicRes parsed k = [] := by
      unfold retrieve
      rw [if_pos he]
    rw [hr]
    refine ⟨by simp, by simp, by simp, fun _ => rfl⟩
  · have hr : retrieve general topicRes parsed k
        = ((sortLe ctxLe (mergedResults general topicRes parsed)).filter
            (fun r => decide (MIN_RELEVANCE_SCORE ≤ r.relevance_score))).take k := by
      unfold retrieve
      rw [if_neg he]
    rw [hr]
    refine ⟨?_, ?_, List.length_take_le _ _, ?_⟩
    · intro c hc
      have hc2 := List.mem_of_mem_take hc
      have := List.of_mem_filter hc2
      exact of_decide_eq_true this
    · exact List.Pairwise.sublist (List.take_sublist _ _)
        (List.Pairwise.sublist (List.filter_sublist _) hsorted)
    · intro hall
      have hnil : (sortLe ctxLe (mergedResults general topicRes parsed)).filter
          (fun r => decide (MIN_RELEVANCE_SCORE ≤ r.relevance_score)) = [] := by
        rw [List.filter_eq_nil_iff]
        intro a ha
        have ham : a ∈ mergedResults general topicRes parsed :=
          (mem_sortLe ctxLe a _).mp ha
        simp only [decide_eq_true_eq]
        exact not_le_of_lt (hall a ham)
      exact absurd hnil (by simpa [List.isEmpty_iff] using he)

/-- C4 witness: a run in which every merged chunk is below the floor
returns the empty list. -/
theorem retrieve_floor_and_sorted_witness :
    retrieve [weakChunkW] [weakChunkW] algebraParsedW 5 = [] :=
  (retrieve_floor_and_sorted [weakChunkW] [weakChunkW] algebraParsedW 5).2.2.2 (by decide)

/-- C10: the solver's backpressure policy — an empty retrieved context
short-circuits to the fixed refusal Solution (answer "Insufficient
reference material to solve reliably.", method `rag_blocked`, no steps,
confidence exactly 0.2) with zero completion-oracle calls; a non-empty
context yields a solution whose confidence is the mean context relevance
clamped into [0.3, 0.95], hence never above 0.95. -/
theorem solver_backpressure (resp : Except String String) (parsed : ParsedProblem)
    (rt : RoutingInfo) (ctx : List RetrievedContext) :
    (ctx = [] → solverSolve resp parsed rt ctx
        = (.ok { final_answer := "Insufficient reference material to solve reliably.",
                 steps := [], method_used := "rag_blocked", context_used := [],
                 confidence := 1 / 5 }, 0))
    ∧ (∀ sol n, solverSolve resp parsed rt ctx = (.ok sol, n) → ctx ≠ [] →
        sol.confidence = min (19 / 20)
          (max (3 / 10) ((ctx.map (fun c => c.relevance_score)).sum / ctx.length))
        ∧ sol.confidence ≤ 19 / 20) := by
  constructor
  · intro hc
    subst hc
    rfl
  · intro sol n h hne
    have hce : ctx.isEmpty = false := by
      cases ctx with
      | nil => exact absurd rfl hne
      | cons a l => rfl
    unfold solverSolve at h
    rw [hce] at h
    simp only [Bool.false_eq_true, if_false] at h
    repeat' split at h
    all_goals first
      | (simp only [Prod.mk.injEq] at h
         exact absurd h.1 (fun hc => Except.noConfusion hc))
      | (simp only [Prod.mk.injEq, Except.ok.injEq] at h
         obtain ⟨h1, -⟩ := h
         rw [← h1]
         exact ⟨rfl, min_le_left _ _⟩)

/-- C10 witness: the refusal at an empty context, and the clamped mean at
a one-chunk context of relevance 0.5. -/
theorem solver_backpressure_witness :
    (solverSolve (.error ("transport failure")) probParsedW { strategy := none } []
        = (.ok { final_answer := "Insufficient reference material to solve reliably.",
                 steps := [], method_used := "rag_blocked", context_used := [],
                 confidence := 1 / 5 }, 0))
    ∧ (solW10.confidence = min (19 / 20)
        (max (3 / 10) ((([ctxChunkW]).map (fun c => c.relevance_score)).sum / ([ctxChunkW]).length))
      ∧ solW10.confidence ≤ 19 / 20) :=
  ⟨(solver_backpressure (.error ("transport failure")) probParsedW { strategy := none } []).1 rfl,
   (solver_backpressure (.ok ("FINAL ANSWER: 42")) probParsedW { strategy := none }
      [ctxChunkW]).2 solW10 1 (by rfl) (by simp)⟩

/-- C8 counterexample: the oracle-judged verification path only floors
the reported confidence at 0.7 and does not cap it, so an oracle report
of 1.5 yields a Verification confidence of 1.5, outside [0,1]. -/
theorem verifier_confidence_not_clamped :
    1 < (verifierVerify (.ok badVerdictW) calcParsedW solutionX4 []).1.confidence := by
  decide

/-- C8 (amended): parser and solver confidences are clamped into [0,1] at
the point of computation, and so are verifier confidences on the
deterministic and probability paths; on the oracle-judged path the
confidence is only floored at 0.7, so it lies in [0,1] whenever the
oracle-reported value is at most 1 (an out-of-range oracle report is
passed through). -/
theorem scores_in_unit_range :
    (∀ o raw p n, parserParse o raw = (.ok p, n) → 0 ≤ p.confidence ∧ p.confidence ≤ 1)
    ∧ (∀ resp parsed rt ctx sol m, solverSolve resp parsed rt ctx = (.ok sol, m) →
        0 ≤ sol.confidence ∧ sol.confidence ≤ 1)
    ∧ (∀ judge parsed sol ctx,
        (∀ d, judge = Except.ok d → d.confidence.getD (7 / 10) ≤ 1) →
        0 ≤ (verifierVerify judge parsed sol ctx).1.confidence
        ∧ (verifierVerify judge parsed sol ctx).1.confidence ≤ 1) := by
  refine ⟨?_, ?_, ?_⟩
  · intro o raw p n h
    unfold parserParse parserParseText at h
    repeat' split at h
    all_goals first
      | (simp only [Prod.mk.injEq] at h
         exact absurd h.1 (fun hc => Except.noConfusion hc))
      | (simp only [Prod.mk.injEq, Except.ok.injEq] at h
         obtain ⟨h1, -⟩ := h
         rw [← h1]
         norm_num [clarifyProblem])
  · intro resp parsed rt ctx sol m h
    unfold solverSolve at h
    repeat' split at h
    all_goals first
      | (simp only [Prod.mk.injEq] at h
         exact absurd h.1 (fun hc => Except.noConfusion hc))
      | (simp only [Prod.mk.injEq, Except.ok.injEq] at h
         obtain ⟨h1, -⟩ := h
         rw [← h1]
         norm_num [ragBlockedSolution])
  · intro judge parsed sol ctx hj
    unfold verifierVerify
    split
    · rename_i r heq
      unfold detVerification
      cases r.1 <;> norm_num
    · split
      · unfold probVerify
        split
        · split <;> norm_num [probSoft]
        · norm_num [probSoft]
      · cases judge with
        | ok d =>
          unfold llmVerifyPath
          refine ⟨le_trans (by norm_num) (le_max_right _ _), ?_⟩
          exact max_le (hj d rfl) (by norm_num)
        | error e =>
          unfold llmVerifyPath
          norm_num

/-- C8 witness: the amended bounds at concrete runs of each stage (a
parser run on `2x+5=13`, a solver refusal, and an oracle-judged
verification whose report is in range). -/
theorem scores_in_unit_range_witness :
    (0 ≤ (clarifyProblem (("asdkjf").data)
        ("Input does not appear to be a math problem.")).confidence
      ∧ (clarifyProblem (("asdkjf").data)
        ("Input does not appear to be a math problem.")).confidence ≤ 1)
    ∧ (0 ≤ ragBlockedSolution.confidence ∧ ragBlockedSolution.confidence ≤ 1)
    ∧ (0 ≤ (verifierVerify (.error ("down")) calcParsedW solutionX4 []).1.confidence
      ∧ (verifierVerify (.error ("down")) calcParsedW solutionX4 []).1.confidence ≤ 1) :=
  ⟨(scores_in_unit_range.1 (.error ("unused")) rawRejectW
      (clarifyProblem (("asdkjf").data) ("Input does not appear to be a math problem.")) 0
      (by decide)),
   (scores_in_unit_range.2.1 (.error ("unused")) probParsedW { strategy := none } []
      ragBlockedSolution 0 (by decide)),
   (scores_in_unit_range.2.2 (.error ("down")) calcParsedW solutionX4 []
      (fun d hd => by cases hd))⟩

/-- When a local validation fails, the parser body returns a
clarification request, with zero oracle calls. -/
theorem parserParse_rejects (o : Except String ParserLLMOut) (text : List Char)
    (hfail : looksLikeMath text = false ∨ hasBalancedBrackets text = false
      ∨ hasInvalidSymbols text = true) :
    ∃ reason, parserParseText o text = (.ok (clarifyProblem text reason), 0) := by
  unfold parserParseText
  by_cases h0 : text.isEmpty = true
  · exact ⟨_, by rw [if_pos h0]⟩
  · cases hlm : looksLikeMath text with
    | false =>
      exact ⟨_, by rw [if_neg h0]; exact rfl⟩
    | true =>
      have h23 : hasBalancedBrackets text = false ∨ hasInvalidSymbols text = true := by
        rcases hfail with h1 | h
        · rw [hlm] at h1
          cases h1
        · exact h
      cases hbb : hasBalancedBrackets text with
      | false =>
        exact ⟨_, by rw [if_neg h0]; exact rfl⟩
      | true =>
        have hinv : hasInvalidSymbols text = true := by
          rcases h23 with h | h
          · rw [hbb] at h
            cases h
          · exact h
        exact ⟨_, by rw [if_neg h0, if_pos hinv]; exact rfl⟩

/-- The leader's clarification short-circuit: a parse that requests
clarification terminates the pipeline at once, with only the Parser
trace. -/
theorem leaderSolve_clarification (env : Env) (raw : RawInput) (parsed : ParsedProblem)
    (n : Nat) (hp : parserParse env.parserOut raw = (.ok parsed, n))
    (hc : parsed.needs_clarification = true) :
    leaderSolve env raw
      = ({ status := "needs_hitl", raw_input := raw, parsed_problem := some parsed,
           solution := none, verification := none, explanation := none,
           agent_traces := [completedTrace ("Parser") (strTake 60 raw.content)
             (("Topic: ") ++ topicValue parsed.topic)],
           hitl_reason := parsed.clarification_reason, error_message := none }, n) := by
  unfold leaderSolve
  rw [hp]
  simp [hc]

/-- C6: every input failing the parser's local math-likeness,
balanced-bracket, or symbol validation terminates the pipeline with
status `needs_hitl` (the spec's needs_review) carrying a rejection
reason; the completion oracle is never invoked (zero calls) and no stage
after the Parser runs (the trace holds the Parser entry alone). -/
theorem invalid_input_rejected_locally (env : Env) (raw : RawInput)
    (hfail : looksLikeMath (stripCL raw.content.data) = false
      ∨ hasBalancedBrackets (stripCL raw.content.data) = false
      ∨ hasInvalidSymbols (stripCL raw.content.data) = true) :
    (leaderSolve env raw).2 = 0
    ∧ (leaderSolve env raw).1.status = "needs_hitl"
    ∧ (leaderSolve env raw).1.hitl_reason.isSome = true
    ∧ (leaderSolve env raw).1.agent_traces.map (fun t => t.agent_name) = [("Parser")] := by
  obtain ⟨reason, hpt⟩ := parserParse_rejects env.parserOut (stripCL raw.content.data) hfail
  have hp : parserParse env.parserOut raw
      = (.ok (clarifyProblem (stripCL raw.content.data) reason), 0) := hpt
  have hls := leaderSolve_clarification env raw _ 0 hp rfl
  rw [hls]
  exact ⟨rfl, rfl, rfl, rfl⟩

/-- C6 witness: the spec's scenario — the input `asdkjf` is rejected
locally with zero oracle calls. -/
theorem invalid_input_rejected_locally_witness :
    (leaderSolve envGateW rawRejectW).2 = 0
    ∧ (leaderSolve envGateW rawRejectW).1.status = "needs_hitl"
    ∧ (leaderSolve envGateW rawRejectW).1.hitl_reason.isSome = true
    ∧ (leaderSolve envGateW rawRejectW).1.agent_traces.map (fun t => t.agent_name)
        = [("Parser")] :=
  invalid_input_rejected_locally envGateW rawRejectW (Or.inl (by decide))

/-- The HITL confidence gate of `LeaderAgent.solve` as seen from the
router stage on: a gated category with verifier confidence below the
threshold yields `needs_hitl` with the solution and verification
preserved on the result. -/
theorem leaderPostStrategy_gate (env : Env) (raw : RawInput) (parsed : ParsedProblem)
    (ts : List AgentTrace) (calls : Nat) (sol : Solution) (m : Nat)
    (hsol : solverSolve env.solverResp parsed env.routerOut
        (retrieve env.generalResults env.topicResults parsed 5) = (.ok sol, m))
    (hb : (topicValue parsed.topic == "algebra"
        || topicValue parsed.topic == "linear_algebra") = true)
    (hconf : (verifierVerify env.verifierJudge parsed sol
        (retrieve env.generalResults env.topicResults parsed 5)).1.confidence
      < env.threshold) :
    (leaderPostStrategy env raw parsed ts calls).1.status = "needs_hitl"
    ∧ (leaderPostStrategy env raw parsed ts calls).1.hitl_reason
        = some ("Low verifier confidence")
    ∧ (leaderPostStrategy env raw parsed ts calls).1.solution = some sol
    ∧ (leaderPostStrategy env raw parsed ts calls).1.verification
        = some (verifierVerify env.verifierJudge parsed sol
            (retrieve env.generalResults env.topicResults parsed 5)).1 := by
  have hgate : ((topicValue parsed.topic == "algebra"
      || topicValue parsed.topic == "linear_algebra")
      && decide ((verifierVerify env.verifierJudge parsed sol
        (retrieve env.generalResults env.topicResults parsed 5)).1.confidence
        < env.threshold)) = true := by
    rw [hb, decide_eq_true hconf]
    rfl
  simp only [leaderPostStrategy]
  rw [hsol]
  simp [hgate]

/-- C1: for every request whose parsed category is algebra or
linear_algebra, when the verification confidence is strictly below the
configured threshold the pipeline terminates with status `needs_hitl`
(the spec's needs_review, never `success`), the reason is low verifier
confidence, and both the solution and the verification are carried on
the FinalResult. -/
theorem confidence_gate_routes_to_review (env : Env) (raw : RawInput)
    (parsed : ParsedProblem) (n : Nat) (st : StrategyOut) (sol : Solution) (m : Nat)
    (hp : parserParse env.parserOut raw = (.ok parsed, n))
    (hc : parsed.needs_clarification = false)
    (ht : topicValue parsed.topic = "algebra" ∨ topicValue parsed.topic = "linear_algebra")
    (hs : env.strategyOut = .ok st)
    (hsol : solverSolve env.solverResp parsed env.routerOut
        (retrieve env.generalResults env.topicResults parsed 5) = (.ok sol, m))
    (hconf : (verifierVerify env.verifierJudge parsed sol
        (retrieve env.generalResults env.topicResults parsed 5)).1.confidence
      < env.threshold) :
    (leaderSolve env raw).1.status = "needs_hitl"
    ∧ (leaderSolve env raw).1.status ≠ "success"
    ∧ (leaderSolve env raw).1.hitl_reason = some ("Low verifier confidence")
    ∧ (leaderSolve env raw).1.solution = some sol
    ∧ (leaderSolve env raw).1.verification
        = some (verifierVerify env.verifierJudge parsed sol
            (retrieve env.generalResults env.topicResults parsed 5)).1 := by
  have hb : (topicValue parsed.topic == "algebra"
      || topicValue parsed.topic == "linear_algebra") = true := by
    rcases ht with h | h <;> simp [h]
  have hres : leaderSolve env raw
      = leaderPostStrategy env raw parsed
          [completedTrace ("Parser") (strTake 60 raw.content)
             (("Topic: ") ++ topicValue parsed.topic),
           completedTrace ("Strategy") ("Planning solution approach")
             (("Type: ") ++ st.problem_type.getD ("unknown"))]
          (n + 1) := by
    unfold leaderSolve
    rw [hp]
    simp only [hc, Bool.false_eq_true, if_false]
    rw [hs]
  obtain ⟨g1, g2, g3, g4⟩ :=
    leaderPostStrategy_gate env raw parsed
      [completedTrace ("Parser") (strTake 60 raw.content)
         (("Topic: ") ++ topicValue parsed.topic),
       completedTrace ("Strategy") ("Planning solution approach")
         (("Type: ") ++ st.problem_type.getD ("unknown"))]
      (n + 1) sol m hsol hb hconf
  rw [hres]
  refine ⟨g1, ?_, g2, g3, g4⟩
  rw [g1]
  decide

/-- C1 witness: an algebra run on `2x+5=13` whose retrieval is empty (so
the solver refuses) and whose verifier oracle fails (confidence 0.70,
below the default 0.80 threshold) ends in `needs_hitl` with solution and
verification preserved. -/
theorem confidence_gate_routes_to_review_witness :
    (leaderSolve envGateW rawW).1.status = "needs_hitl"
    ∧ (leaderSolve envGateW rawW).1.status ≠ "success"
    ∧ (leaderSolve envGateW rawW).1.hitl_reason = some ("Low verifier confidence")
    ∧ (leaderSolve envGateW rawW).1.solution = some ragBlockedSolution
    ∧ (leaderSolve envGateW rawW).1.verification
        = some (verifierVerify envGateW.verifierJudge parsedGateW ragBlockedSolution
            (retrieve envGateW.generalResults envGateW.topicResults parsedGateW 5)).1 :=
  confidence_gate_routes_to_review envGateW rawW parsedGateW 1
    { problem_type := none } ragBlockedSolution 0
    (by decide) (by decide) (Or.inl (by decide)) (by decide) (by decide) (by decide)

/-- A fresh row appended to a table whose ids are all smaller is found
under its id. -/
theorem find_snoc_fresh (rows : List InteractionRow) (row : InteractionRow) (iid : Nat)
    (hid : row.id = iid) (hlt : ∀ r ∈ rows, r.id < iid) :
    (rows ++ [row]).find? (fun r => r.id == iid) = some row := by
  induction rows with
  | nil =>
    simp [List.find?, hid]
  | cons a l ih =>
    have ha : (a.id == iid) = false := by
      simp only [beq_eq_false_iff_ne]
      exact Nat.ne_of_lt (hlt a (by simp))
    rw [List.cons_append]
    have hstep : List.find? (fun r => r.id == iid) (a :: (l ++ [row]))
        = List.find? (fun r => r.id == iid) (l ++ [row]) := by
      simp [List.find?, ha]
    rw [hstep]
    exact ih (fun r hr => hlt r (by simp [hr]))

/-- C7: the persistence protocol of `MemoryStore.save_interaction` — the
relational row is inserted first with a null `embedding_id`; if the
embedding computation or the vector-index write fails, the call raises
but the committed row survives with `embedding_id` still null and the
vector index untouched (step 1 is never rolled back); when both succeed,
the vector index gains exactly the entry under the deterministic key
`interaction_<id>` and the row's `embedding_id` is backfilled to that
key; and `find_similar` only ever returns items built from vector-index
entries, so a row whose index write has not completed is invisible to
similarity search. -/
theorem store_persistence_protocol :
    (∀ embedOk addOk entry s, storeWF s → (embedOk = false ∨ addOk = false) →
        (∃ e, (saveInteraction embedOk addOk entry s).1 = Except.error e)
        ∧ getRow (saveInteraction embedOk addOk entry s).2 s.nextId
            = some (pendingRow entry s.nextId)
        ∧ (saveInteraction embedOk addOk entry s).2.index = s.index)
    ∧ (∀ entry s, storeWF s →
        (saveInteraction true true entry s).1 = .ok s.nextId
        ∧ getRow (saveInteraction true true entry s).2 s.nextId
            = some { pendingRow entry s.nextId with
                       embedding_id := some (interactionKey s.nextId) }
        ∧ (saveInteraction true true entry s).2.index
            = s.index ++ [indexEntryOf entry s.nextId])
    ∧ (∀ dist k s item, item ∈ findSimilar dist k s →
        ∃ e ∈ s.index, item = mkSimilarItem dist e) := by
  refine ⟨?_, ?_, ?_⟩
  · intro embedOk addOk entry s hWF hor
    have hrow : getRow (insertRow entry s).1 s.nextId = some (pendingRow entry s.nextId) :=
      find_snoc_fresh s.rows (pendingRow entry s.nextId) s.nextId rfl hWF
    cases embedOk with
    | false => exact ⟨⟨_, rfl⟩, hrow, rfl⟩
    | true =>
      cases addOk with
      | false => exact ⟨⟨_, rfl⟩, hrow, rfl⟩
      | true =>
        rcases hor with h | h <;> cases h
  · intro entry s hWF
    refine ⟨rfl, ?_, rfl⟩
    show ((s.rows ++ [pendingRow entry s.nextId]).map
        (fun r => if r.id == s.nextId then
          { r with embedding_id := some (interactionKey s.nextId) } else r)).find?
        (fun r => r.id == s.nextId)
      = some { pendingRow entry s.nextId with
                 embedding_id := some (interactionKey s.nextId) }
    rw [List.map_append]
    have hmap : s.rows.map
        (fun r => if r.id == s.nextId then
          { r with embedding_id := some (interactionKey s.nextId) } else r) = s.rows := by
      have := List.map_congr_left (l := s.rows)
        (f := fun r => if r.id == s.nextId then
          { r with embedding_id := some (interactionKey s.nextId) } else r)
        (g := id)
        (fun r hr => by
          have hne : (r.id == s.nextId) = false := by
            simp only [beq_eq_false_iff_ne]
            exact Nat.ne_of_lt (hWF r hr)
          simp [hne])
      simpa using this
    rw [hmap]
    have hone : [pendingRow entry s.nextId].map
        (fun r => if r.id == s.nextId then
          { r with embedding_id := some (interactionKey s.nextId) } else r)
      = [{ pendingRow entry s.nextId with
             embedding_id := some (interactionKey s.nextId) }] := by
      simp [pendingRow]
    rw [hone]
    exact find_snoc_fresh s.rows _ s.nextId rfl hWF
  · intro dist k s item h
    unfold findSimilar at h
    obtain ⟨e, he, heq⟩ := List.mem_map.mp h
    exact ⟨e, (mem_sortLe _ e _).mp (List.mem_of_mem_take he), heq.symm⟩

/-- C7 witness: a failed embedding on a fresh store leaves the committed
row pending (null `embedding_id`) and the vector index untouched. -/
theorem store_persistence_protocol_witness :
    (∃ e, (saveInteraction false true entryW emptyStoreW).1 = Except.error e)
    ∧ getRow (saveInteraction false true entryW emptyStoreW).2 emptyStoreW.nextId
        = some (pendingRow entryW emptyStoreW.nextId)
    ∧ (saveInteraction false true entryW emptyStoreW).2.index = emptyStoreW.index :=
  store_persistence_protocol.1 false true entryW emptyStoreW
    (by intro r hr; cases hr) (Or.inl rfl)

end MathMentor
